import Mathlib

/-!
Verification of the push subscription-manager component
(`components/push/src/lib.rs` and its `internal` core).

The first part embeds, directly from the source of `lib.rs`, the public
error type and its conversion from the internal error kind, the
configuration built by `PushManager::new`, and the signed-byte wrapper of
`decrypt`.  The second part models the `internal::PushManager` operations
(subscribe / unsubscribe / unsubscribe_all / update / verify_connection),
whose source module is not part of the provided tree, from the
specification's component design, as explicit state-passing functions over
a persisted store, with the bridging server's responses supplied as
explicit arguments and the sequence of bridge calls returned as a trace.
-/

/-- The internal error kind, as enumerated exhaustively by the match arms of
`impl From<internal::error::Error> for PushError` in `lib.rs` (each variant's
payload modelled as the string the conversion extracts from it). -/
inductive ErrorKind where
  | GeneralError (message : String)
  | CryptoError (message : String)
  | CommunicationError (message : String)
  | CommunicationServerError (message : String)
  | AlreadyRegisteredError
  | StorageError (message : String)
  | RecordNotFoundError (chid : String)
  | StorageSqlError (message : String)
  | MissingRegistrationTokenError
  | TranscodingError (message : String)
  | UrlParseError (message : String)
  | JSONDeserializeError (message : String)
  | UAIDNotRecognizedError (message : String)
  | RequestError (message : String)
  | OpenDatabaseError (message : String)
deriving DecidableEq, Repr

/-- The public facing error enum `PushError` of `lib.rs` (lines 424-482). -/
inductive PushError where
  | GeneralError (message : String)
  | CryptoError (message : String)
  | CommunicationError (message : String)
  | CommunicationServerError (message : String)
  | AlreadyRegisteredError
  | StorageError (message : String)
  | RecordNotFoundError (chid : String)
  | StorageSqlError (message : String)
  | MissingRegistrationTokenError
  | TranscodingError (message : String)
  | UrlParseError (message : String)
  | JSONDeserializeError (message : String)
  | UAIDNotRecognizedError (message : String)
  | RequestError (message : String)
  | OpenDatabaseError (message : String)
deriving DecidableEq, Repr

/-- The conversion `From<internal::error::Error> for PushError` of `lib.rs`
(lines 505-531): a total match on the internal error kind, mapping each kind
to the same-named public variant and carrying the message (or chid) over. -/
def PushError.ofErrorKind : ErrorKind → PushError
  | .GeneralError message => .GeneralError message
  | .CryptoError message => .CryptoError message
  | .CommunicationError message => .CommunicationError message
  | .CommunicationServerError message => .CommunicationServerError message
  | .AlreadyRegisteredError => .AlreadyRegisteredError
  | .StorageError message => .StorageError message
  | .RecordNotFoundError chid => .RecordNotFoundError chid
  | .StorageSqlError e => .StorageSqlError e
  | .MissingRegistrationTokenError => .MissingRegistrationTokenError
  | .TranscodingError message => .TranscodingError message
  | .UrlParseError e => .UrlParseError e
  | .JSONDeserializeError e => .JSONDeserializeError e
  | .UAIDNotRecognizedError message => .UAIDNotRecognizedError message
  | .RequestError e => .RequestError e
  | .OpenDatabaseError e => .OpenDatabaseError e

/-- The name of an internal error kind's variant. -/
def ErrorKind.variantName : ErrorKind → String
  | .GeneralError _ => "GeneralError"
  | .CryptoError _ => "CryptoError"
  | .CommunicationError _ => "CommunicationError"
  | .CommunicationServerError _ => "CommunicationServerError"
  | .AlreadyRegisteredError => "AlreadyRegisteredError"
  | .StorageError _ => "StorageError"
  | .RecordNotFoundError _ => "RecordNotFoundError"
  | .StorageSqlError _ => "StorageSqlError"
  | .MissingRegistrationTokenError => "MissingRegistrationTokenError"
  | .TranscodingError _ => "TranscodingError"
  | .UrlParseError _ => "UrlParseError"
  | .JSONDeserializeError _ => "JSONDeserializeError"
  | .UAIDNotRecognizedError _ => "UAIDNotRecognizedError"
  | .RequestError _ => "RequestError"
  | .OpenDatabaseError _ => "OpenDatabaseError"

/-- The name of a public error variant. -/
def PushError.variantName : PushError → String
  | .GeneralError _ => "GeneralError"
  | .CryptoError _ => "CryptoError"
  | .CommunicationError _ => "CommunicationError"
  | .CommunicationServerError _ => "CommunicationServerError"
  | .AlreadyRegisteredError => "AlreadyRegisteredError"
  | .StorageError _ => "StorageError"
  | .RecordNotFoundError _ => "RecordNotFoundError"
  | .StorageSqlError _ => "StorageSqlError"
  | .MissingRegistrationTokenError => "MissingRegistrationTokenError"
  | .TranscodingError _ => "TranscodingError"
  | .UrlParseError _ => "UrlParseError"
  | .JSONDeserializeError _ => "JSONDeserializeError"
  | .UAIDNotRecognizedError _ => "UAIDNotRecognizedError"
  | .RequestError _ => "RequestError"
  | .OpenDatabaseError _ => "OpenDatabaseError"

/-- The payload (message or channel id) carried by an internal error kind. -/
def ErrorKind.payload : ErrorKind → Option String
  | .GeneralError m => some m
  | .CryptoError m => some m
  | .CommunicationError m => some m
  | .CommunicationServerError m => some m
  | .AlreadyRegisteredError => none
  | .StorageError m => some m
  | .RecordNotFoundError c => some c
  | .StorageSqlError m => some m
  | .MissingRegistrationTokenError => none
  | .TranscodingError m => some m
  | .UrlParseError m => some m
  | .JSONDeserializeError m => some m
  | .UAIDNotRecognizedError m => some m
  | .RequestError m => some m
  | .OpenDatabaseError m => some m

/-- The payload (message or channel id) carried by a public error variant. -/
def PushError.payload : PushError → Option String
  | .GeneralError m => some m
  | .CryptoError m => some m
  | .CommunicationError m => some m
  | .CommunicationServerError m => some m
  | .AlreadyRegisteredError => none
  | .StorageError m => some m
  | .RecordNotFoundError c => some c
  | .StorageSqlError m => some m
  | .MissingRegistrationTokenError => none
  | .TranscodingError m => some m
  | .UrlParseError m => some m
  | .JSONDeserializeError m => some m
  | .UAIDNotRecognizedError m => some m
  | .RequestError m => some m
  | .OpenDatabaseError m => some m

/-- The error kinds enumerated by the specification's error-handling design. -/
def specErrorKinds : List String :=
  ["GeneralError", "CryptoError", "CommunicationError",
   "CommunicationServerError", "AlreadyRegisteredError", "StorageError",
   "StorageSqlError", "RecordNotFoundError", "MissingRegistrationTokenError",
   "TranscodingError", "UrlParseError", "JSONDeserializeError",
   "UAIDNotRecognizedError", "RequestError", "OpenDatabaseError"]

/-- The supported native bridge types (`BridgeType` in `lib.rs`). -/
inductive BridgeType where
  | Fcm
  | Adm
  | Apns
  | Test
deriving DecidableEq, Repr

/-- The configuration `PushManager::new` builds and hands to
`internal::PushManager::new` (the remaining `PushConfiguration` fields are
filled by `..Default::default()` and do not depend on the arguments). -/
structure PushConfiguration where
  server_host : String
  http_protocol : Option String
  bridge_type : Option String
  sender_id : String
  database_path : Option String
deriving DecidableEq, Repr

namespace PushManager

/-- The string the `match` in `PushManager::new` assigns to the bridge type. -/
def bridgeTypeString : BridgeType → String
  | .Adm => "adm"
  | .Apns => "apns"
  | .Fcm => "fcm"
  | .Test => "test"

/-- The body of `PushManager::new` (`lib.rs` lines 230-262), as the
configuration it constructs.  The `registration_id` argument is consumed only
by a deprecation log warning when non-empty and flows into nothing else; the
internal manager is constructed from the returned configuration alone. -/
def new (sender_id : String) (server_host : String) (http_protocol : String)
    (bridge_type : BridgeType) (registration_id : String)
    (database_path : String) : PushConfiguration :=
  let bt := bridgeTypeString bridge_type
  let _warned := registration_id ≠ ""
  { server_host := server_host
    http_protocol := some http_protocol
    bridge_type := some bt
    sender_id := sender_id
    database_path := some database_path }

/-- Rust's `u8 as i8` cast: the byte reinterpreted as a signed 8-bit value. -/
def byteAsI8 (b : Nat) : Int :=
  if b % 256 < 128 then ((b % 256 : Nat) : Int) else ((b % 256 : Nat) : Int) - 256

/-- The public `decrypt` wrapper (`lib.rs` lines 383-402), as a function of
the internal decryption outcome: on success it maps `|ub| ub as i8` over the
plaintext bytes and collects, and nothing else. -/
def decrypt (internalResult : Except PushError (List Nat)) :
    Except PushError (List Int) :=
  match internalResult with
  | .error e => .error e
  | .ok decrypted => .ok (decrypted.map byteAsI8)

end PushManager

namespace Internal

/-- Modelled from the spec: the singleton identity record of the missing
`internal` module (uaid, its authorization secret, and the native
registration token last reported to the server). -/
structure Identity where
  uaid : String
  secret : String
  current_token : String
deriving DecidableEq, Repr

/-- Modelled from the spec: one channel subscription record of the missing
`internal::storage` module. -/
structure ChannelRecord where
  channel_id : String
  scope : String
  endpoint : String
  app_server_key : Option String
  private_key : String
  public_key : String
  auth_secret : String
deriving DecidableEq, Repr

/-- Modelled from the spec: the persisted state owned by the missing
`internal::PushManager` — the optional identity record, the channel records,
and the explicit Stale tag of the identity-lifecycle state machine. -/
structure Store where
  identity : Option Identity
  channels : List ChannelRecord
  stale : Bool
deriving DecidableEq, Repr

/-- One entry of the list `verify_connection` returns (`PushSubscriptionChanged`
in `lib.rs`). -/
structure PushSubscriptionChanged where
  channel_id : String
  scope : String
deriving DecidableEq, Repr

/-- A call made to the bridging server, recorded in an operation's trace. -/
inductive BridgeCall where
  | registerCall
  | subscribeChannel (chid : String)
  | unsubscribeChannel (chid : String)
  | unsubscribeAllCall
  | updateToken (token : String)
  | channelListCall
deriving DecidableEq, Repr

/-- The subscription response returned by `subscribe`. -/
structure SubscriptionResponse where
  channel_id : String
  endpoint : String
  public_key : String
  auth_secret : String
deriving DecidableEq, Repr

/-- Modelled from the spec: the part of `internal::PushManager::subscribe`
past the ensure-identity step.  It substitutes a generated id for an empty
`channel_id`, fails with `AlreadyRegisteredError` when a record already
exists for the id, uses the generated key material (the `keys` argument
stands for the KeyStore output: private key, public key, auth secret), calls
`subscribe_channel` (its outcome is the `subResp` argument), and only on its
success persists the new record. -/
def subscribeWithIdentity (st : Store) (channel_id : String) (scope : String)
    (server_key : Option String) (genChid : String)
    (keys : String × String × String) (subResp : Except ErrorKind String)
    (tr : List BridgeCall) :
    Except ErrorKind SubscriptionResponse × Store × List BridgeCall :=
  let chid := if channel_id = "" then genChid else channel_id
  if st.channels.any (fun c => decide (c.channel_id = chid)) then
    (.error .AlreadyRegisteredError, st, tr)
  else
    match subResp with
    | .error e => (.error e, st, tr ++ [.subscribeChannel chid])
    | .ok endpoint =>
      let record : ChannelRecord :=
        { channel_id := chid, scope := scope, endpoint := endpoint
          app_server_key := server_key, private_key := keys.1
          public_key := keys.2.1, auth_secret := keys.2.2 }
      (.ok { channel_id := chid, endpoint := endpoint
             public_key := keys.2.1, auth_secret := keys.2.2 },
       { st with channels := st.channels ++ [record] },
       tr ++ [.subscribeChannel chid])

/-- Modelled from the spec: `internal::PushManager::subscribe` (missing from
the tree).  Steps, per the component design: ensure an Active identity
(registering if absent; the server's answer to a registration is the
`registerResp` argument), then hand over to `subscribeWithIdentity`.
Returns the result, the resulting store, and the trace of bridge calls
made. -/
def subscribe (st : Store) (channel_id : String) (scope : String)
    (server_key : Option String) (genChid : String)
    (registerResp : Except ErrorKind Identity)
    (keys : String × String × String)
    (subResp : Except ErrorKind String) :
    Except ErrorKind SubscriptionResponse × Store × List BridgeCall :=
  match st.identity with
  | none =>
    match registerResp with
    | .error e => (.error e, st, [.registerCall])
    | .ok fresh =>
      subscribeWithIdentity { st with identity := some fresh }
        channel_id scope server_key genChid keys subResp [.registerCall]
  | some _ =>
    subscribeWithIdentity st channel_id scope server_key genChid keys
      subResp []

/-- Modelled from the spec: `internal::PushManager::unsubscribe_all` (missing
from the tree): requires an identity, calls the server's bulk unsubscribe
(its outcome is the `resp` argument), and only after its success deletes all
local channel records; a network error is surfaced before the local wipe. -/
def unsubscribe_all (st : Store) (resp : Except ErrorKind Unit) :
    Except ErrorKind Unit × Store × List BridgeCall :=
  match st.identity with
  | none => (.error (.GeneralError "no subscriptions created yet!"), st, [])
  | some _ =>
    match resp with
    | .error e => (.error e, st, [.unsubscribeAllCall])
    | .ok _ => (.ok (), { st with channels := [] }, [.unsubscribeAllCall])

/-- Modelled from the spec: `internal::PushManager::unsubscribe` (missing
from the tree): an empty channel id delegates to `unsubscribe_all`;
otherwise it calls `unsubscribe_channel` (outcome `resp`, whose boolean is
the server's report of whether a remote subscription was actually removed,
with "already gone" responses counted as success) and on success deletes the
local record whether or not one existed, returning the server's boolean. -/
def unsubscribe (st : Store) (channel_id : String)
    (resp : Except ErrorKind Bool) (respAll : Except ErrorKind Unit) :
    Except ErrorKind Bool × Store × List BridgeCall :=
  if channel_id = "" then
    match unsubscribe_all st respAll with
    | (.error e, st', tr) => (.error e, st', tr)
    | (.ok _, st', tr) => (.ok true, st', tr)
  else
    match st.identity with
    | none => (.error (.GeneralError "no subscriptions created yet!"), st, [])
    | some _ =>
      match resp with
      | .error e => (.error e, st, [.unsubscribeChannel channel_id])
      | .ok removed =>
        (.ok removed,
         { st with channels :=
             st.channels.filter (fun c => decide (c.channel_id ≠ channel_id)) },
         [.unsubscribeChannel channel_id])

/-- Modelled from the spec: `internal::PushManager::update` (missing from the
tree): requires an identity, persists the new token into the identity
record, then calls `update_token` (outcome `resp`).  A
`UAIDNotRecognizedError` from that call marks the identity Stale and is
absorbed into an `ok false` result (the caller should run
`verify_connection` next); any other error propagates; success returns
`ok true`. -/
def update (st : Store) (new_token : String) (resp : Except ErrorKind Unit) :
    Except ErrorKind Bool × Store × List BridgeCall :=
  match st.identity with
  | none => (.error (.GeneralError "no subscriptions created yet!"), st, [])
  | some ident =>
    let st1 : Store :=
      { st with identity := some { ident with current_token := new_token } }
    match resp with
    | .error (.UAIDNotRecognizedError _) =>
      (.ok false, { st1 with stale := true }, [.updateToken new_token])
    | .error e => (.error e, st1, [.updateToken new_token])
    | .ok _ => (.ok true, st1, [.updateToken new_token])

/-- Modelled from the spec: `internal::PushManager::verify_connection`
(missing from the tree), the reconciliation algorithm.  With no identity it
returns the empty list.  Otherwise it calls `channel_list` (outcome `resp`).
If the server reports the identity unrecognized, it captures the known
`(channel_id, scope)` pairs, clears the identity and all channel records,
re-registers once to obtain a fresh identity (the `fresh` argument), and
returns the captured pairs.  Otherwise, each local channel absent from the
remote list is deleted locally and reported; local channels also present
remotely are kept untouched; remote-only channels are left alone.  Any
other error propagates. -/
def verify_connection (st : Store) (resp : Except ErrorKind (List String))
    (fresh : Identity) :
    Except ErrorKind (List PushSubscriptionChanged) × Store × List BridgeCall :=
  match st.identity with
  | none => (.ok [], st, [])
  | some _ =>
    match resp with
    | .error (.UAIDNotRecognizedError _) =>
      let captured := st.channels.map
        (fun c => PushSubscriptionChanged.mk c.channel_id c.scope)
      (.ok captured,
       { identity := some fresh, channels := [], stale := false },
       [.channelListCall, .registerCall])
    | .error e => (.error e, st, [.channelListCall])
    | .ok remote =>
      let changed := (st.channels.filter
          (fun c => decide (c.channel_id ∉ remote))).map
        (fun c => PushSubscriptionChanged.mk c.channel_id c.scope)
      (.ok changed,
       { st with channels :=
           st.channels.filter (fun c => decide (c.channel_id ∈ remote)) },
       [.channelListCall])

end Internal

/-- One representative of each internal error kind, in the order the
specification enumerates the kinds. -/
def errorKindSamples : List ErrorKind :=
  [.GeneralError "m", .CryptoError "m", .CommunicationError "m",
   .CommunicationServerError "m", .AlreadyRegisteredError, .StorageError "m",
   .StorageSqlError "m", .RecordNotFoundError "chid",
   .MissingRegistrationTokenError, .TranscodingError "m", .UrlParseError "m",
   .JSONDeserializeError "m", .UAIDNotRecognizedError "m", .RequestError "m",
   .OpenDatabaseError "m"]

/-- C7: the public error type exposes exactly the error kinds the
specification enumerates, and the conversion from the internal error kind is
total (a total function on `ErrorKind`), maps each kind to the same-named
public variant, and preserves the carried message or channel id.  The third
conjunct shows every spec-enumerated kind is realized by the public type:
converting one representative of each internal kind yields the spec's list
of names. -/
theorem pushError_matches_spec :
    (∀ k : ErrorKind, (PushError.ofErrorKind k).variantName = k.variantName ∧
      (PushError.ofErrorKind k).payload = k.payload) ∧
    (∀ e : PushError, e.variantName ∈ specErrorKinds) ∧
    errorKindSamples.map (fun k => (PushError.ofErrorKind k).variantName) =
      specErrorKinds := by
  refine ⟨fun k => ?_, fun e => ?_, rfl⟩
  · cases k <;> exact ⟨rfl, rfl⟩
  · cases e <;> simp [PushError.variantName, specErrorKinds]

/-- C9: two calls of `PushManager::new` differing only in the
`registration_id` argument construct identical manager configurations: the
argument only triggers a deprecation log warning when non-empty and never
influences the persisted configuration, which is all the internal manager is
built from. -/
theorem new_ignores_registration_id (sender_id server_host http_protocol :
    String) (bridge_type : BridgeType) (r1 r2 database_path : String) :
    PushManager.new sender_id server_host http_protocol bridge_type r1
        database_path =
      PushManager.new sender_id server_host http_protocol bridge_type r2
        database_path := rfl

/-- C10: a successful public `decrypt` call returns a list of the same length
as the internally decrypted plaintext, whose entries are the plaintext bytes
reinterpreted as signed 8-bit values: each lies in `[-128, 128)` and is
congruent to the corresponding plaintext byte modulo `2^8`; no other
transformation is applied. -/
theorem decrypt_signed_bytes (pt : List Nat) (hpt : ∀ b ∈ pt, b < 256) :
    ∃ l : List Int, PushManager.decrypt (.ok pt) = .ok l ∧
      l.length = pt.length ∧
      ∀ i, ∀ h : i < pt.length, ∃ h2 : i < l.length,
        -128 ≤ l.get ⟨i, h2⟩ ∧ l.get ⟨i, h2⟩ < 128 ∧
        l.get ⟨i, h2⟩ % 256 = ((pt.get ⟨i, h⟩ : Nat) : Int) % 256 := by
  refine ⟨pt.map PushManager.byteAsI8, rfl, by simp, ?_⟩
  intro i h
  have h2 : i < (pt.map PushManager.byteAsI8).length := by simpa using h
  refine ⟨h2, ?_⟩
  have hget : (pt.map PushManager.byteAsI8).get ⟨i, h2⟩ =
      PushManager.byteAsI8 (pt.get ⟨i, h⟩) := by
    simp
  have hb : pt.get ⟨i, h⟩ < 256 := hpt _ (pt.get_mem _ _)
  rw [hget]
  unfold PushManager.byteAsI8
  rw [Nat.mod_eq_of_lt hb]
  split
  · omega
  · omega

/-- C10 witness: the theorem evaluated on the concrete plaintext
`[0, 1, 127, 128, 255]`. -/
theorem decrypt_signed_bytes_witness :
    (∀ b ∈ [0, 1, 127, 128, 255], b < 256) ∧
    (∃ l : List Int,
      PushManager.decrypt (.ok [0, 1, 127, 128, 255]) = .ok l ∧
      l.length = ([0, 1, 127, 128, 255] : List Nat).length ∧
      ∀ i, ∀ h : i < ([0, 1, 127, 128, 255] : List Nat).length,
        ∃ h2 : i < l.length,
        -128 ≤ l.get ⟨i, h2⟩ ∧ l.get ⟨i, h2⟩ < 128 ∧
        l.get ⟨i, h2⟩ % 256 =
          ((([0, 1, 127, 128, 255] : List Nat).get ⟨i, h⟩ : Nat) : Int) % 256) :=
  ⟨by decide, decrypt_signed_bytes [0, 1, 127, 128, 255] (by decide)⟩

/-- A sample identity used to evaluate the operations on concrete inputs. -/
def sampleIdentity : Internal.Identity :=
  { uaid := "uaid-1", secret := "secret-1", current_token := "token-1" }

/-- A fresh identity the modelled server issues on re-registration. -/
def freshIdentity : Internal.Identity :=
  { uaid := "uaid-2", secret := "secret-2", current_token := "token-1" }

/-- A sample channel record. -/
def sampleChannel1 : Internal.ChannelRecord :=
  { channel_id := "chan-1", scope := "scope-1", endpoint := "ep-1"
    app_server_key := none, private_key := "priv-1", public_key := "pub-1"
    auth_secret := "auth-1" }

/-- A second sample channel record. -/
def sampleChannel2 : Internal.ChannelRecord :=
  { channel_id := "chan-2", scope := "scope-2", endpoint := "ep-2"
    app_server_key := some "vapid", private_key := "priv-2"
    public_key := "pub-2", auth_secret := "auth-2" }

/-- A sample store holding an active identity and two channel records. -/
def sampleStore : Internal.Store :=
  { identity := some sampleIdentity
    channels := [sampleChannel1, sampleChannel2]
    stale := false }

/-- C1: under an Active identity, when `channel_list` succeeds with remote
set `R`, `verify_connection` returns exactly the `(channel_id, scope)` pairs
of the local channels outside `R`, deletes exactly those local records,
keeps every local record whose id is in `R` unmodified, adds no record, and
reports no channel that is only remote. -/
theorem verify_connection_reconciles (st : Internal.Store)
    (uid fresh : Internal.Identity) (remote : List String)
    (hid : st.identity = some uid) :
    ∃ changed : List Internal.PushSubscriptionChanged, ∃ st' : Internal.Store,
      Internal.verify_connection st (.ok remote) fresh =
        (.ok changed, st', [.channelListCall]) ∧
      st'.identity = st.identity ∧
      (∀ c ∈ st.channels, c.channel_id ∉ remote →
        Internal.PushSubscriptionChanged.mk c.channel_id c.scope ∈ changed ∧
          c ∉ st'.channels) ∧
      (∀ c ∈ st.channels, c.channel_id ∈ remote → c ∈ st'.channels) ∧
      (∀ p ∈ changed, ∃ c ∈ st.channels, c.channel_id ∉ remote ∧
        p = Internal.PushSubscriptionChanged.mk c.channel_id c.scope) ∧
      (∀ c ∈ st'.channels, c ∈ st.channels) := by
  refine ⟨(st.channels.filter (fun c => decide (c.channel_id ∉ remote))).map
      (fun c => Internal.PushSubscriptionChanged.mk c.channel_id c.scope),
    { st with channels :=
        st.channels.filter (fun c => decide (c.channel_id ∈ remote)) },
    by unfold Internal.verify_connection; rw [hid], rfl, ?_, ?_, ?_, ?_⟩
  · intro c hc hnot
    constructor
    · exact List.mem_map_of_mem _
        (List.mem_filter.mpr ⟨hc, by simpa using hnot⟩)
    · intro hmem
      have := (List.mem_filter.mp hmem).2
      simp at this
      exact hnot this
  · intro c hc hin
    exact List.mem_filter.mpr ⟨hc, by simpa using hin⟩
  · intro p hp
    obtain ⟨c, hcf, rfl⟩ := List.mem_map.mp hp
    obtain ⟨hc, hnot⟩ := List.mem_filter.mp hcf
    simp at hnot
    exact ⟨c, hc, hnot, rfl⟩
  · intro c hc
    exact (List.mem_filter.mp hc).1

/-- C1 witness: reconciliation evaluated on the sample store against the
remote set containing `chan-1` (shared) and `chan-9` (remote-only). -/
theorem verify_connection_reconciles_witness :
    sampleStore.identity = some sampleIdentity ∧
    (∃ changed : List Internal.PushSubscriptionChanged, ∃ st' : Internal.Store,
      Internal.verify_connection sampleStore (.ok ["chan-1", "chan-9"])
          freshIdentity =
        (.ok changed, st', [.channelListCall]) ∧
      st'.identity = sampleStore.identity ∧
      (∀ c ∈ sampleStore.channels, c.channel_id ∉ ["chan-1", "chan-9"] →
        Internal.PushSubscriptionChanged.mk c.channel_id c.scope ∈ changed ∧
          c ∉ st'.channels) ∧
      (∀ c ∈ sampleStore.channels, c.channel_id ∈ ["chan-1", "chan-9"] →
        c ∈ st'.channels) ∧
      (∀ p ∈ changed, ∃ c ∈ sampleStore.channels,
        c.channel_id ∉ ["chan-1", "chan-9"] ∧
        p = Internal.PushSubscriptionChanged.mk c.channel_id c.scope) ∧
      (∀ c ∈ st'.channels, c ∈ sampleStore.channels)) :=
  ⟨rfl, verify_connection_reconciles sampleStore sampleIdentity freshIdentity
    ["chan-1", "chan-9"] rfl⟩

/-- C2 counterexample: an `update` call in which the server reports the
identity unrecognized neither clears the identity or the channel records nor
registers a fresh identity during that call: per the component design it
only marks the identity Stale and returns `false`; recovery happens in the
next `verify_connection`.  So the claim, which asserts clear-and-reregister
for `update` calls as well, fails at this input. -/
theorem update_unrecognized_does_not_reregister :
    (Internal.update sampleStore "token-2"
        (.error (.UAIDNotRecognizedError "gone"))).2.1.identity ≠ none ∧
    (Internal.update sampleStore "token-2"
        (.error (.UAIDNotRecognizedError "gone"))).2.1.channels ≠ [] ∧
    (Internal.update sampleStore "token-2"
        (.error (.UAIDNotRecognizedError "gone"))).2.2.count .registerCall
      = 0 := by
  refine ⟨?_, ?_, rfl⟩ <;> simp [Internal.update, sampleStore, sampleIdentity]

/-- C2 (amended to `verify_connection`, per the component design's `update`
contract): when `channel_list` inside `verify_connection` reports the
identity unrecognized, the identity and all channel records are cleared, a
fresh identity is registered exactly once during the call, and — the local
channel ids being distinct — the returned list contains every
previously-known `(channel_id, scope)` pair exactly once, and nothing
else. -/
theorem verify_connection_identity_loss (st : Internal.Store)
    (uid fresh : Internal.Identity) (m : String)
    (hid : st.identity = some uid)
    (hnodup : (st.channels.map (fun c => c.channel_id)).Nodup) :
    ∃ l : List Internal.PushSubscriptionChanged, ∃ st' : Internal.Store,
      ∃ tr : List Internal.BridgeCall,
      Internal.verify_connection st (.error (.UAIDNotRecognizedError m))
          fresh = (.ok l, st', tr) ∧
      st'.identity = some fresh ∧
      st'.channels = [] ∧
      tr.count .registerCall = 1 ∧
      (∀ c ∈ st.channels,
        l.count (Internal.PushSubscriptionChanged.mk c.channel_id c.scope)
          = 1) ∧
      (∀ p ∈ l, ∃ c ∈ st.channels,
        p = Internal.PushSubscriptionChanged.mk c.channel_id c.scope) := by
  refine ⟨st.channels.map
      (fun c => Internal.PushSubscriptionChanged.mk c.channel_id c.scope),
    { identity := some fresh, channels := [], stale := false },
    [.channelListCall, .registerCall],
    by unfold Internal.verify_connection; rw [hid], rfl, rfl, rfl, ?_, ?_⟩
  · intro c hc
    have hpairs : (st.channels.map
        (fun c => Internal.PushSubscriptionChanged.mk c.channel_id
          c.scope)).Nodup := by
      apply List.Nodup.of_map Internal.PushSubscriptionChanged.channel_id
      simpa [List.map_map, Function.comp] using hnodup
    exact List.count_eq_one_of_mem hpairs (List.mem_map_of_mem _ hc)
  · intro p hp
    obtain ⟨c, hc, rfl⟩ := List.mem_map.mp hp
    exact ⟨c, hc, rfl⟩

/-- C2 witness: identity loss during `verify_connection` evaluated on the
sample store, whose two channel ids are distinct. -/
theorem verify_connection_identity_loss_witness :
    (sampleStore.identity = some sampleIdentity ∧
     (sampleStore.channels.map (fun c => c.channel_id)).Nodup) ∧
    (∃ l : List Internal.PushSubscriptionChanged, ∃ st' : Internal.Store,
      ∃ tr : List Internal.BridgeCall,
      Internal.verify_connection sampleStore
          (.error (.UAIDNotRecognizedError "gone")) freshIdentity =
        (.ok l, st', tr) ∧
      st'.identity = some freshIdentity ∧
      st'.channels = [] ∧
      tr.count .registerCall = 1 ∧
      (∀ c ∈ sampleStore.channels,
        l.count (Internal.PushSubscriptionChanged.mk c.channel_id c.scope)
          = 1) ∧
      (∀ p ∈ l, ∃ c ∈ sampleStore.channels,
        p = Internal.PushSubscriptionChanged.mk c.channel_id c.scope)) :=
  ⟨⟨rfl, by decide⟩,
    verify_connection_identity_loss sampleStore sampleIdentity freshIdentity
      "gone" rfl (by decide)⟩

/-- A failing `subscribe_channel` round trip makes `subscribe` return that
error with the store untouched, provided the identity is present and the
requested (or generated) id passes the existing-record check. -/
theorem subscribe_bridge_error (st : Internal.Store)
    (uid : Internal.Identity) (chid scope gen : String) (sk : Option String)
    (keys : String × String × String)
    (rr : Except ErrorKind Internal.Identity) (e : ErrorKind)
    (hid : st.identity = some uid)
    (hfresh : ∀ c ∈ st.channels,
      c.channel_id ≠ (if chid = "" then gen else chid)) :
    Internal.subscribe st chid scope sk gen rr keys (.error e) =
      (.error e, st,
        [.subscribeChannel (if chid = "" then gen else chid)]) := by
  unfold Internal.subscribe
  rw [hid]
  unfold Internal.subscribeWithIdentity
  have hany : (st.channels.any fun c =>
      decide (c.channel_id = if chid = "" then gen else chid)) = false := by
    simp only [List.any_eq_false, decide_eq_true_eq]
    exact hfresh
  simp [hany]

/-- Inversion for the post-identity part of `subscribe` when the
`subscribe_channel` call fails: if that call is recorded in the returned
trace but was not in the incoming trace (so the failing call is this one),
the result is that error and the store is returned untouched. -/
theorem subscribeWithIdentity_error_inv (st : Internal.Store)
    (chid scope : String) (sk : Option String) (gen : String)
    (keys : String × String × String) (e : ErrorKind)
    (tr : List Internal.BridgeCall)
    (res : Except ErrorKind Internal.SubscriptionResponse)
    (st' : Internal.Store) (tr' : List Internal.BridgeCall)
    (h : Internal.subscribeWithIdentity st chid scope sk gen keys (.error e)
        tr = (res, st', tr'))
    (hmem : Internal.BridgeCall.subscribeChannel
        (if chid = "" then gen else chid) ∈ tr')
    (hnot : Internal.BridgeCall.subscribeChannel
        (if chid = "" then gen else chid) ∉ tr) :
    res = .error e ∧ st' = st := by
  unfold Internal.subscribeWithIdentity at h
  by_cases hany : (st.channels.any fun c =>
      decide (c.channel_id = if chid = "" then gen else chid)) = true
  · rw [if_pos hany] at h
    simp only [Prod.mk.injEq] at h
    obtain ⟨-, -, h3⟩ := h
    subst h3
    exact absurd hmem hnot
  · rw [if_neg hany] at h
    simp only [Prod.mk.injEq] at h
    obtain ⟨h1, h2, -⟩ := h
    exact ⟨h1.symm, h2.symm⟩

/-- C3: for every state (identity present or not) and every input, when the
network call inside `subscribe` (the `subscribe_channel` round trip, whose
occurrence is recorded in the returned trace) fails, `subscribe` returns
that error and persists no channel record: the resulting store's channels
are exactly the input channels.  (In the Uninitialized flow the preceding,
successful registration round trip has persisted the fresh identity — that
is step 1's separate call, not the failing one, and still no channel record
exists.)  And when the network call inside `unsubscribe_all` fails, it
returns that error with the store entirely unchanged — no local channel
record is deleted. -/
theorem network_error_leaves_state (st : Internal.Store)
    (chid scope gen : String) (sk : Option String)
    (keys : String × String × String)
    (rr : Except ErrorKind Internal.Identity) (e eAll : ErrorKind) :
    (∀ res : Except ErrorKind Internal.SubscriptionResponse,
      ∀ st' : Internal.Store, ∀ tr : List Internal.BridgeCall,
      Internal.subscribe st chid scope sk gen rr keys (.error e)
          = (res, st', tr) →
      Internal.BridgeCall.subscribeChannel
          (if chid = "" then gen else chid) ∈ tr →
      res = .error e ∧ st'.channels = st.channels) ∧
    (∀ res : Except ErrorKind Unit, ∀ st' : Internal.Store,
      ∀ tr : List Internal.BridgeCall,
      Internal.unsubscribe_all st (.error eAll) = (res, st', tr) →
      Internal.BridgeCall.unsubscribeAllCall ∈ tr →
      res = .error eAll ∧ st' = st) := by
  constructor
  · intro res st' tr heq hmem
    unfold Internal.subscribe at heq
    cases hident : st.identity with
    | none =>
      rw [hident] at heq
      cases rr with
      | error eReg =>
        have heq2 : ((Except.error eReg :
              Except ErrorKind Internal.SubscriptionResponse), st,
            ([.registerCall] : List Internal.BridgeCall))
            = (res, st', tr) := heq
        simp only [Prod.mk.injEq] at heq2
        obtain ⟨-, -, h3⟩ := heq2
        subst h3
        simp at hmem
      | ok f =>
        have heq2 : Internal.subscribeWithIdentity
            { identity := some f, channels := st.channels,
              stale := st.stale } chid scope sk gen keys (.error e)
            [.registerCall] = (res, st', tr) := heq
        obtain ⟨h1, h2⟩ := subscribeWithIdentity_error_inv _ chid scope sk
          gen keys e [.registerCall] res st' tr heq2 hmem (by simp)
        exact ⟨h1, by rw [h2]⟩
    | some uid =>
      rw [hident] at heq
      obtain ⟨h1, h2⟩ := subscribeWithIdentity_error_inv st chid scope sk
        gen keys e [] res st' tr heq hmem (by simp)
      exact ⟨h1, by rw [h2]⟩
  · intro res st' tr heq hmem
    unfold Internal.unsubscribe_all at heq
    cases hident : st.identity with
    | none =>
      rw [hident] at heq
      have heq2 : ((Except.error (ErrorKind.GeneralError
            "no subscriptions created yet!") : Except ErrorKind Unit), st,
          ([] : List Internal.BridgeCall)) = (res, st', tr) := heq
      simp only [Prod.mk.injEq] at heq2
      obtain ⟨-, -, h3⟩ := heq2
      subst h3
      simp at hmem
    | some uid =>
      rw [hident] at heq
      have heq2 : ((Except.error eAll : Except ErrorKind Unit), st,
          ([.unsubscribeAllCall] : List Internal.BridgeCall))
          = (res, st', tr) := heq
      simp only [Prod.mk.injEq] at heq2
      obtain ⟨h1, h2, -⟩ := heq2
      exact ⟨h1.symm, h2.symm⟩

/-- C3 witness: a failing `subscribe_channel` call after a successful
registration from the Uninitialized state (no identity, no channels), and a
failing bulk unsubscribe on the sample store. -/
theorem network_error_leaves_state_witness :
    (Internal.subscribe (Internal.Store.mk none [] false) "chan-3" "scope-3"
        none "gen-1" (.ok freshIdentity) ("p", "P", "a")
        (.error (.CommunicationError "down")) =
      (.error (.CommunicationError "down"),
        Internal.Store.mk (some freshIdentity) [] false,
        [.registerCall, .subscribeChannel "chan-3"]) ∧
     Internal.BridgeCall.subscribeChannel
        (if "chan-3" = "" then "gen-1" else "chan-3") ∈
       ([.registerCall, .subscribeChannel "chan-3"] :
         List Internal.BridgeCall) ∧
     ((.error (.CommunicationError "down") :
        Except ErrorKind Internal.SubscriptionResponse)
        = .error (.CommunicationError "down") ∧
      (Internal.Store.mk (some freshIdentity) [] false).channels =
        (Internal.Store.mk none [] false).channels)) ∧
    (Internal.unsubscribe_all sampleStore
        (.error (.CommunicationServerError "503")) =
      (.error (.CommunicationServerError "503"), sampleStore,
        [.unsubscribeAllCall]) ∧
     Internal.BridgeCall.unsubscribeAllCall ∈
       ([.unsubscribeAllCall] : List Internal.BridgeCall) ∧
     ((.error (.CommunicationServerError "503") : Except ErrorKind Unit)
        = .error (.CommunicationServerError "503") ∧
      sampleStore = sampleStore)) :=
  ⟨⟨rfl, by decide,
    (network_error_leaves_state (Internal.Store.mk none [] false) "chan-3"
        "scope-3" "gen-1" none ("p", "P", "a") (.ok freshIdentity)
        (.CommunicationError "down") (.CommunicationServerError "503")).1
      (.error (.CommunicationError "down"))
      (Internal.Store.mk (some freshIdentity) [] false)
      [.registerCall, .subscribeChannel "chan-3"] rfl (by decide)⟩,
   ⟨rfl, by decide,
    (network_error_leaves_state sampleStore "chan-3" "scope-3" "gen-1" none
        ("p", "P", "a") (.ok freshIdentity) (.CommunicationError "down")
        (.CommunicationServerError "503")).2
      (.error (.CommunicationServerError "503")) sampleStore
      [.unsubscribeAllCall] rfl (by decide)⟩⟩

/-- C4: with an existing identity, `update` converts a
`UAIDNotRecognizedError` reported by `update_token` into an `ok false`
result and marks the identity Stale; any other error from the call is
propagated; and `update` is the only operation that absorbs the error into
a `false` result — `subscribe`, `unsubscribe` and `unsubscribe_all`
propagate a `UAIDNotRecognizedError` from their bridge call to the caller
(while `verify_connection` handles it through its specified
clear-and-reregister recovery rather than absorbing it). -/
theorem update_absorbs_unrecognized_only (st : Internal.Store)
    (uid : Internal.Identity) (tok m : String)
    (hid : st.identity = some uid) :
    (Internal.update st tok (.error (.UAIDNotRecognizedError m))).1
        = .ok false ∧
    (Internal.update st tok
        (.error (.UAIDNotRecognizedError m))).2.1.stale = true ∧
    (∀ e : ErrorKind, (∀ m2, e ≠ .UAIDNotRecognizedError m2) →
      (Internal.update st tok (.error e)).1 = .error e) ∧
    (∀ chid scope gen : String, ∀ sk : Option String,
      ∀ keys : String × String × String,
      ∀ rr : Except ErrorKind Internal.Identity,
      (∀ c ∈ st.channels,
        c.channel_id ≠ (if chid = "" then gen else chid)) →
      (Internal.subscribe st chid scope sk gen rr keys
          (.error (.UAIDNotRecognizedError m))).1
        = .error (.UAIDNotRecognizedError m)) ∧
    (∀ chid : String, chid ≠ "" → ∀ respAll : Except ErrorKind Unit,
      (Internal.unsubscribe st chid (.error (.UAIDNotRecognizedError m))
          respAll).1 = .error (.UAIDNotRecognizedError m)) ∧
    (Internal.unsubscribe_all st (.error (.UAIDNotRecognizedError m))).1
      = .error (.UAIDNotRecognizedError m) := by
  refine ⟨?_, ?_, ?_, ?_, ?_, ?_⟩
  · unfold Internal.update; rw [hid]
  · unfold Internal.update; rw [hid]
  · intro e he
    unfold Internal.update
    rw [hid]
    cases e <;> first | rfl | exact (he _ rfl).elim
  · intro chid scope gen sk keys rr hfresh
    rw [subscribe_bridge_error st uid chid scope gen sk keys rr
      (.UAIDNotRecognizedError m) hid hfresh]
  · intro chid hchid respAll
    unfold Internal.unsubscribe
    rw [if_neg hchid, hid]
  · unfold Internal.unsubscribe_all
    rw [hid]

/-- C4 witness: the theorem evaluated on the sample store with token
`token-9` and server message `stale uaid`. -/
theorem update_absorbs_unrecognized_only_witness :
    sampleStore.identity = some sampleIdentity ∧
    ((Internal.update sampleStore "token-9"
        (.error (.UAIDNotRecognizedError "stale uaid"))).1 = .ok false ∧
     (Internal.update sampleStore "token-9"
        (.error (.UAIDNotRecognizedError "stale uaid"))).2.1.stale = true ∧
     (∀ e : ErrorKind, (∀ m2, e ≠ .UAIDNotRecognizedError m2) →
       (Internal.update sampleStore "token-9" (.error e)).1 = .error e) ∧
     (∀ chid scope gen : String, ∀ sk : Option String,
       ∀ keys : String × String × String,
       ∀ rr : Except ErrorKind Internal.Identity,
       (∀ c ∈ sampleStore.channels,
         c.channel_id ≠ (if chid = "" then gen else chid)) →
       (Internal.subscribe sampleStore chid scope sk gen rr keys
           (.error (.UAIDNotRecognizedError "stale uaid"))).1
         = .error (.UAIDNotRecognizedError "stale uaid")) ∧
     (∀ chid : String, chid ≠ "" → ∀ respAll : Except ErrorKind Unit,
       (Internal.unsubscribe sampleStore chid
           (.error (.UAIDNotRecognizedError "stale uaid")) respAll).1
         = .error (.UAIDNotRecognizedError "stale uaid")) ∧
     (Internal.unsubscribe_all sampleStore
         (.error (.UAIDNotRecognizedError "stale uaid"))).1
       = .error (.UAIDNotRecognizedError "stale uaid")) :=
  ⟨rfl, update_absorbs_unrecognized_only sampleStore sampleIdentity "token-9"
    "stale uaid" rfl⟩

/-- A successful pass through the post-identity part of `subscribe` keeps
the stored channel ids duplicate-free: the new id passed the
existing-record check, so appending its record preserves distinctness. -/
theorem subscribeWithIdentity_ok_nodup (st : Internal.Store)
    (chid scope : String) (sk : Option String) (gen : String)
    (keys : String × String × String) (ep : String)
    (tr : List Internal.BridgeCall) (r : Internal.SubscriptionResponse)
    (st' : Internal.Store) (tr' : List Internal.BridgeCall)
    (hnodup : (st.channels.map (fun c => c.channel_id)).Nodup)
    (h : Internal.subscribeWithIdentity st chid scope sk gen keys (.ok ep) tr
        = (.ok r, st', tr')) :
    (st'.channels.map (fun c => c.channel_id)).Nodup := by
  unfold Internal.subscribeWithIdentity at h
  by_cases hany : (st.channels.any fun c =>
      decide (c.channel_id = if chid = "" then gen else chid)) = true
  · rw [if_pos hany] at h
    simp at h
  · rw [if_neg hany] at h
    simp only [Prod.mk.injEq] at h
    obtain ⟨-, hst, -⟩ := h
    rw [← hst]
    rw [Bool.not_eq_true, List.any_eq_false] at hany
    simp only [List.map_append, List.map_cons, List.map_nil]
    apply List.Nodup.append hnodup (List.nodup_singleton _)
    intro a ha hmem
    obtain ⟨c, hc, hcid⟩ := List.mem_map.mp ha
    simp only [List.mem_singleton] at hmem
    have hne := hany c hc
    simp only [decide_eq_true_eq] at hne
    exact hne (hcid.trans hmem)

/-- C5: when a record already exists for the requested `channel_id`,
`subscribe` fails with `AlreadyRegisteredError` before any network call and
leaves the store — in particular the existing record — unmodified; and any
successful `subscribe` preserves distinctness of the stored channel ids, so
successive successful calls with distinct requested ids store records with
distinct ids. -/
theorem subscribe_already_registered (st : Internal.Store)
    (uid : Internal.Identity) (c0 : Internal.ChannelRecord)
    (chid scope gen : String) (sk : Option String)
    (keys : String × String × String)
    (rr : Except ErrorKind Internal.Identity)
    (subResp : Except ErrorKind String)
    (hid : st.identity = some uid) (hchid : chid ≠ "")
    (hc0 : c0 ∈ st.channels) (heq : c0.channel_id = chid) :
    Internal.subscribe st chid scope sk gen rr keys subResp =
      (.error .AlreadyRegisteredError, st, []) ∧
    c0 ∈ (Internal.subscribe st chid scope sk gen rr keys subResp).2.1.channels ∧
    (∀ st2 : Internal.Store, ∀ chid2 scope2 gen2 : String,
      ∀ sk2 : Option String, ∀ keys2 : String × String × String,
      ∀ rr2 : Except ErrorKind Internal.Identity, ∀ ep : String,
      ∀ r : Internal.SubscriptionResponse, ∀ st' : Internal.Store,
      ∀ tr : List Internal.BridgeCall,
      (st2.channels.map (fun c => c.channel_id)).Nodup →
      Internal.subscribe st2 chid2 scope2 sk2 gen2 rr2 keys2 (.ok ep) =
        (.ok r, st', tr) →
      (st'.channels.map (fun c => c.channel_id)).Nodup) := by
  have h1 : Internal.subscribe st chid scope sk gen rr keys subResp =
      (.error .AlreadyRegisteredError, st, []) := by
    unfold Internal.subscribe
    rw [hid]
    unfold Internal.subscribeWithIdentity
    rw [if_neg hchid]
    have hany : (st.channels.any fun c =>
        decide (c.channel_id = chid)) = true :=
      List.any_eq_true.mpr ⟨c0, hc0, by simp [heq]⟩
    rw [if_pos hany]
  refine ⟨h1, by rw [h1]; exact hc0, ?_⟩
  intro st2 chid2 scope2 gen2 sk2 keys2 rr2 ep r st' tr hnodup2 hok
  unfold Internal.subscribe at hok
  cases h2 : st2.identity with
  | none =>
    rw [h2] at hok
    cases rr2 with
    | error e => simp at hok
    | ok f =>
      have hok2 : Internal.subscribeWithIdentity
          { identity := some f, channels := st2.channels, stale := st2.stale }
          chid2 scope2 sk2 gen2 keys2 (.ok ep) [.registerCall]
          = (.ok r, st', tr) := hok
      exact subscribeWithIdentity_ok_nodup
        { identity := some f, channels := st2.channels, stale := st2.stale }
        chid2 scope2 sk2 gen2 keys2 ep [.registerCall] r st' tr hnodup2 hok2
  | some u =>
    rw [h2] at hok
    exact subscribeWithIdentity_ok_nodup st2 chid2 scope2 sk2 gen2 keys2 ep
      _ r st' tr hnodup2 hok

/-- C5 witness: subscribing again to `chan-1`, which the sample store
already holds, with a server that would have granted the endpoint. -/
theorem subscribe_already_registered_witness :
    (sampleStore.identity = some sampleIdentity ∧ "chan-1" ≠ "" ∧
     sampleChannel1 ∈ sampleStore.channels ∧
     sampleChannel1.channel_id = "chan-1") ∧
    (Internal.subscribe sampleStore "chan-1" "scope-x" none "gen-1"
        (.ok freshIdentity) ("p", "P", "a") (.ok "ep-x") =
      (.error .AlreadyRegisteredError, sampleStore, []) ∧
     sampleChannel1 ∈ (Internal.subscribe sampleStore "chan-1" "scope-x"
        none "gen-1" (.ok freshIdentity) ("p", "P", "a")
        (.ok "ep-x")).2.1.channels ∧
    (∀ st2 : Internal.Store, ∀ chid2 scope2 gen2 : String,
      ∀ sk2 : Option String, ∀ keys2 : String × String × String,
      ∀ rr2 : Except ErrorKind Internal.Identity, ∀ ep : String,
      ∀ r : Internal.SubscriptionResponse, ∀ st' : Internal.Store,
      ∀ tr : List Internal.BridgeCall,
      (st2.channels.map (fun c => c.channel_id)).Nodup →
      Internal.subscribe st2 chid2 scope2 sk2 gen2 rr2 keys2 (.ok ep) =
        (.ok r, st', tr) →
      (st'.channels.map (fun c => c.channel_id)).Nodup)) :=
  ⟨⟨rfl, by decide, by decide, rfl⟩,
    subscribe_already_registered sampleStore sampleIdentity sampleChannel1
      "chan-1" "scope-x" "gen-1" none ("p", "P", "a") (.ok freshIdentity)
      (.ok "ep-x") rfl (by decide) (by decide) rfl⟩

/-- C6: with an identity present, `unsubscribe` on a non-empty channel id
that has no local record never errors when the server call succeeds
(including the tolerated "already gone" responses): it returns the server's
boolean report of whether a remote subscription was actually removed, and
the local store is left as it was — local absence is not an error. -/
theorem unsubscribe_missing_record_succeeds (st : Internal.Store)
    (uid : Internal.Identity) (chid : String) (b : Bool)
    (respAll : Except ErrorKind Unit)
    (hid : st.identity = some uid) (hchid : chid ≠ "")
    (habsent : ∀ c ∈ st.channels, c.channel_id ≠ chid) :
    Internal.unsubscribe st chid (.ok b) respAll =
      (.ok b, st, [.unsubscribeChannel chid]) := by
  obtain ⟨ident, chans, stl⟩ := st
  have hid2 : ident = some uid := hid
  subst hid2
  have hfix : chans.filter
      (fun c => decide (c.channel_id ≠ chid)) = chans := by
    apply List.filter_eq_self.mpr
    intro c hc
    simpa using habsent c hc
  unfold Internal.unsubscribe
  rw [if_neg hchid, hfix]

/-- C6 witness: unsubscribing `chan-7`, which has no record in the sample
store, with the server reporting nothing was removed remotely either. -/
theorem unsubscribe_missing_record_succeeds_witness :
    (sampleStore.identity = some sampleIdentity ∧ "chan-7" ≠ "" ∧
     (∀ c ∈ sampleStore.channels, c.channel_id ≠ "chan-7")) ∧
    Internal.unsubscribe sampleStore "chan-7" (.ok false) (.ok ()) =
      (.ok false, sampleStore, [.unsubscribeChannel "chan-7"]) :=
  ⟨⟨rfl, by decide, by decide⟩,
    unsubscribe_missing_record_succeeds sampleStore sampleIdentity "chan-7"
      false (.ok ()) rfl (by decide) (by decide)⟩
